import Mathlib

set_option linter.unusedVariables false

/-!
Verification of the dual-tank lift-station simulator
(src/tank_model.py and src/mqtt_sim_client.py).

The numerical domain is modelled with exact rationals.  The governing
right-hand side of the ODE is piecewise constant, so the design document
explicitly allows an exact closed-form step as a valid integration method;
scipy.integrate.solve_ivp with the terminal, rising-direction capacity
event is therefore embedded as the exact closed-form solution of the
piecewise-constant dynamics together with exact event location.
-/

/-- Constant INDIVIDUAL_TANK_CAPACITY_LITERS from src/tank_model.py line 15. -/
def INDIVIDUAL_TANK_CAPACITY_LITERS : ℚ := 10000

/-- Constant TOTAL_SYSTEM_CAPACITY_LITERS from src/tank_model.py line 16. -/
def TOTAL_SYSTEM_CAPACITY_LITERS : ℚ := INDIVIDUAL_TANK_CAPACITY_LITERS * 2

/-- Constant PUMP_FLOW_RATE_LITERS_PER_MIN from src/tank_model.py line 17. -/
def PUMP_FLOW_RATE_LITERS_PER_MIN : ℚ := 60

/-- Constant SIMULATION_STEP_DURATION_MINUTES from src/mqtt_sim_client.py
line 51 (one real second expressed in simulated minutes). -/
def SIMULATION_STEP_DURATION_MINUTES : ℚ := 1 / 60

/-- Embedding of calculate_volume_change_rate (src/tank_model.py lines 19-54).
The scalar volume stands for the one-element numpy array volume[0]; the
time argument is accepted and unused exactly as in the source. -/
def calculate_volume_change_rate (time volume fab_outflow_rate pump_flow_rate
    active_tank_count pump_status total_capacity : ℚ) : ℚ :=
  let total_inflow_rate := fab_outflow_rate * active_tank_count
  let total_outflow_rate := pump_flow_rate * pump_status
  let net_flow_rate := total_inflow_rate - total_outflow_rate
  if total_capacity ≤ volume ∧ 0 < net_flow_rate then 0 else net_flow_rate

/-- Embedding of detect_capacity_reached (src/tank_model.py lines 56-72):
the event root function volume - TOTAL_SYSTEM_CAPACITY_LITERS.  Its
terminal = True and direction = 1 attributes (lines 75-76) are modelled
inside solve_ivp_segment below. -/
def detect_capacity_reached (time volume : ℚ) : ℚ :=
  volume - TOTAL_SYSTEM_CAPACITY_LITERS

/-- Result of one solve_ivp call: the last solver time point
(solver_result.t[-1]), the last volume (solver_result.y[0][-1]), and the
capacity event time (solver_result.t_events[0][0] when the event fired). -/
structure SegmentResult where
  t_end : ℚ
  v_end : ℚ
  event_time : Option ℚ
  deriving Repr, DecidableEq

/-- Embedding of scipy.integrate.solve_ivp applied to
calculate_volume_change_rate with events = detect_capacity_reached
(terminal, direction = 1), as at src/tank_model.py lines 114-121 and
src/mqtt_sim_client.py lines 189-195.  Because the right-hand side is
piecewise constant in volume, the exact solution over a segment is
piecewise linear and the event location is exact; every call site passes
total_capacity = TOTAL_SYSTEM_CAPACITY_LITERS, the same constant used by
the event function.  The three cases:
with v0 below capacity and positive net flow reaching capacity inside the
segment, the solver terminates at the rising zero crossing of the event;
with v0 at or above capacity and positive net flow the rate is forced to 0
and the volume stays constant (no rising crossing, no event);
otherwise the volume moves linearly at the net flow rate for the whole
segment and no rising crossing of the capacity boundary occurs. -/
def solve_ivp_segment (t0 t1 v0 fab_outflow_rate pump_flow_rate
    active_tank_count pump_status total_capacity : ℚ) : SegmentResult :=
  let net_flow_rate :=
    fab_outflow_rate * active_tank_count - pump_flow_rate * pump_status
  if v0 < total_capacity ∧ 0 < net_flow_rate ∧
      total_capacity - v0 ≤ net_flow_rate * (t1 - t0) then
    { t_end := t0 + (total_capacity - v0) / net_flow_rate
      v_end := total_capacity
      event_time := some (t0 + (total_capacity - v0) / net_flow_rate) }
  else if total_capacity ≤ v0 ∧ 0 < net_flow_rate then
    { t_end := t1, v_end := v0, event_time := none }
  else
    { t_end := t1, v_end := v0 + net_flow_rate * (t1 - t0), event_time := none }

/-- Control topic TOPIC_ACTIVE_TANK_COUNT (src/mqtt_sim_client.py line 33). -/
def TOPIC_ACTIVE_TANK_COUNT : String := "lift_station/active_tanks"

/-- Control topic TOPIC_PUMP_OPERATIONAL_STATUS (src/mqtt_sim_client.py
line 34). -/
def TOPIC_PUMP_OPERATIONAL_STATUS : String := "lift_station/pump_status"

/-- Control topic TOPIC_FAB_OUTFLOW_RATE (src/mqtt_sim_client.py line 35). -/
def TOPIC_FAB_OUTFLOW_RATE : String := "lift_station/fab_outflow"

/-- The three dynamic control parameters of src/mqtt_sim_client.py
(module globals at lines 46-48), gathered in one record. -/
structure ControlStore where
  active_tank_count : ℚ
  pump_operational_status : ℚ
  fab_outflow_rate_per_tank : ℚ
  deriving Repr, DecidableEq

/-- The initial values of the control parameters
(src/mqtt_sim_client.py lines 46-48). -/
def initialControlStore : ControlStore :=
  { active_tank_count := 2
    pump_operational_status := 1
    fab_outflow_rate_per_tank := 100 }

/-- The simulation state globals current_tank_volume_liters and
simulation_time_elapsed_minutes (src/mqtt_sim_client.py lines 41-42). -/
structure SimState where
  current_tank_volume_liters : ℚ
  simulation_time_elapsed_minutes : ℚ
  deriving Repr, DecidableEq

/-- The initial simulation state (src/mqtt_sim_client.py lines 41-42). -/
def initialSimState : SimState :=
  { current_tank_volume_liters := 0, simulation_time_elapsed_minutes := 0 }

/-- Embedding of handle_control_message (src/mqtt_sim_client.py lines
78-113).  The payload argument models float(message.payload.decode()):
some v when the conversion succeeds with value v, none when it raises
ValueError; in the none case the source only prints a diagnostic and
leaves every parameter unchanged.  Each successful message assigns the
parsed value to the parameter selected by the topic with no range check. -/
def handle_control_message (cs : ControlStore) (topic : String)
    (payload : Option ℚ) : ControlStore :=
  match payload with
  | none => cs
  | some control_value =>
    if topic = TOPIC_ACTIVE_TANK_COUNT then
      { cs with active_tank_count := control_value }
    else if topic = TOPIC_PUMP_OPERATIONAL_STATUS then
      { cs with pump_operational_status := control_value }
    else if topic = TOPIC_FAB_OUTFLOW_RATE then
      { cs with fab_outflow_rate_per_tank := control_value }
    else cs

/-- Embedding of calculate_flow_rates (src/mqtt_sim_client.py lines
115-123): the pair (total inflow rate, total outflow rate). -/
def calculate_flow_rates (cs : ControlStore) : ℚ × ℚ :=
  (cs.fab_outflow_rate_per_tank * cs.active_tank_count,
   PUMP_FLOW_RATE_LITERS_PER_MIN * cs.pump_operational_status)

/-- The status indicator subexpression of format_status_display
(src/mqtt_sim_client.py line 143): OVERFLOW when the volume is at or
above total capacity, OK otherwise.  The surrounding f-string text
formatting is presentation only and is not modelled. -/
def status_indicator (volume : ℚ) : String :=
  if TOTAL_SYSTEM_CAPACITY_LITERS ≤ volume then "OVERFLOW" else "OK"

/-- One iteration of the body of run_simulation_loop
(src/mqtt_sim_client.py lines 174-225) in the successful-solver case:
snapshot of the control parameters taken at lines 180-186, one-segment
solve at lines 189-195, commit of the last solver point at lines 201-203
(the exact model always returns at least one point), and the capacity
clamp at lines 205-207. -/
def simulation_step (st : SimState) (cs : ControlStore) : SimState :=
  let segment_start_time := st.simulation_time_elapsed_minutes
  let segment_end_time := segment_start_time + SIMULATION_STEP_DURATION_MINUTES
  let solver_result := solve_ivp_segment segment_start_time segment_end_time
    st.current_tank_volume_liters cs.fab_outflow_rate_per_tank
    PUMP_FLOW_RATE_LITERS_PER_MIN cs.active_tank_count
    cs.pump_operational_status TOTAL_SYSTEM_CAPACITY_LITERS
  let committed_time := solver_result.t_end
  let committed_volume :=
    if TOTAL_SYSTEM_CAPACITY_LITERS < solver_result.v_end then
      TOTAL_SYSTEM_CAPACITY_LITERS
    else solver_result.v_end
  { current_tank_volume_liters := committed_volume
    simulation_time_elapsed_minutes := committed_time }

/-- One externally visible event of the running system: either the MQTT
callback thread delivers a control message (topic plus parse outcome of
the payload), or the scheduler thread runs one tick whose solve_ivp call
either succeeds or raises (the except branch at src/mqtt_sim_client.py
lines 196-199). -/
inductive LoopEvent where
  | control (topic : String) (payload : Option ℚ)
  | tick (solver_raises : Bool)
  deriving Repr, DecidableEq

/-- Sequential interleaving semantics of run_simulation_loop
(src/mqtt_sim_client.py lines 152-225) together with the message handler:
control events update the parameter store; a tick integrates one segment
with the parameter snapshot current at its start when the loop is still
running; a solver exception sets is_simulation_running to False and
breaks before any state is committed; once stopped, ticks change
nothing (the while condition fails) while the callback thread may still
process control messages. -/
def run_loop (st : SimState) (cs : ControlStore) (running : Bool) :
    List LoopEvent → SimState × ControlStore × Bool
  | [] => (st, cs, running)
  | LoopEvent.control topic payload :: rest =>
      run_loop st (handle_control_message cs topic payload) running rest
  | LoopEvent.tick solver_raises :: rest =>
      if running then
        if solver_raises then
          run_loop st cs false rest
        else
          run_loop (simulation_step st cs) cs true rest
      else
        run_loop st cs running rest

/-- The solve_ivp call of run_test_scenario (src/tank_model.py lines
114-121): time span [0, 300], initial volume 0, fab outflow 100 L/min per
tank, both tanks active, pump on.  The t_eval output grid only selects
reporting points and does not affect the end state or the event time. -/
def run_test_scenario_solver_result : SegmentResult :=
  solve_ivp_segment 0 300 0 100 PUMP_FLOW_RATE_LITERS_PER_MIN 2 1
    TOTAL_SYSTEM_CAPACITY_LITERS

/-- The per-row volume adjustment of the reporting loop in
run_test_scenario (src/tank_model.py lines 133-138): when the capacity
event fired at a positive time and the row time is at or past it, the
displayed volume is replaced by TOTAL_SYSTEM_CAPACITY_LITERS. -/
def scenario_reported_volume (capacity_reached_time time_point
    volume_value : ℚ) : ℚ :=
  if 0 < capacity_reached_time ∧ capacity_reached_time ≤ time_point then
    TOTAL_SYSTEM_CAPACITY_LITERS
  else volume_value

/-- Helper: one loop iteration always commits a volume at most total
capacity, because the commit path ends with the clamp of
src/mqtt_sim_client.py lines 205-207. -/
theorem simulation_step_volume_le (st : SimState) (cs : ControlStore) :
    (simulation_step st cs).current_tank_volume_liters ≤
      TOTAL_SYSTEM_CAPACITY_LITERS := by
  simp only [simulation_step]
  split_ifs with h
  · exact le_rfl
  · exact le_of_not_lt h

/-- Helper: the volume invariant is preserved by any interleaving of
control messages and ticks. -/
theorem run_loop_preserves_volume_le (evs : List LoopEvent) :
    ∀ (st : SimState) (cs : ControlStore) (running : Bool),
      st.current_tank_volume_liters ≤ TOTAL_SYSTEM_CAPACITY_LITERS →
      (run_loop st cs running evs).1.current_tank_volume_liters ≤
        TOTAL_SYSTEM_CAPACITY_LITERS := by
  induction evs with
  | nil => intro st cs running h; exact h
  | cons ev rest ih =>
    intro st cs running h
    cases ev with
    | control topic payload => exact ih st _ running h
    | tick solver_raises =>
      cases running with
      | false => exact ih st cs false h
      | true =>
        cases solver_raises with
        | false => exact ih _ cs true (simulation_step_volume_le st cs)
        | true => exact ih st cs false h

/-- Claim C1 counterexample: the lower bound 0 ≤ volume fails on the code.
Starting from the initial state with the valid control parameters
fabOutflowRatePerTank = 0, activeTankCount = 0, pumpOn = 1 (pump keeps its
initial value 1), the net flow is -60 L/min; after one committed segment of
1/60 minute the volume is -1 liters, and nothing in the code clamps it from
below. -/
theorem run_loop_volume_can_go_negative :
    (run_loop initialSimState initialControlStore true
      [LoopEvent.control TOPIC_FAB_OUTFLOW_RATE (some 0),
       LoopEvent.control TOPIC_ACTIVE_TANK_COUNT (some 0),
       LoopEvent.tick false]).1.current_tank_volume_liters = -1 ∧
    ¬ (0 : ℚ) ≤ -1 := by
  constructor
  · have h1 : handle_control_message initialControlStore TOPIC_FAB_OUTFLOW_RATE
        (some 0) = ⟨2, 1, 0⟩ := by
      simp [handle_control_message, initialControlStore, TOPIC_FAB_OUTFLOW_RATE,
        TOPIC_ACTIVE_TANK_COUNT, TOPIC_PUMP_OPERATIONAL_STATUS]
    have h2 : handle_control_message ⟨2, 1, 0⟩ TOPIC_ACTIVE_TANK_COUNT
        (some 0) = ⟨0, 1, 0⟩ := by
      simp [handle_control_message, TOPIC_FAB_OUTFLOW_RATE,
        TOPIC_ACTIVE_TANK_COUNT, TOPIC_PUMP_OPERATIONAL_STATUS]
    have h3 : simulation_step initialSimState ⟨0, 1, 0⟩ = ⟨-1, 1 / 60⟩ := by
      norm_num [simulation_step, solve_ivp_segment, initialSimState,
        TOTAL_SYSTEM_CAPACITY_LITERS, INDIVIDUAL_TANK_CAPACITY_LITERS,
        PUMP_FLOW_RATE_LITERS_PER_MIN, SIMULATION_STEP_DURATION_MINUTES]
    simp [run_loop, h1, h2, h3]
  · norm_num

/-- Claim C1 (amended): for every sequence of control messages and segment
updates starting from the initial state, the committed volume after each
update satisfies volume ≤ totalCapacity (enforced by the clamp after the
solver step).  The lower bound 0 ≤ volume does not hold in general: with
valid parameters giving negative net flow the volume goes below zero, since
the code has no lower clamp and no event at volume 0.  Every intermediate
state of a run is the final state of a prefix of the event list, so the
universal quantification over event lists covers the state after every
update. -/
theorem run_loop_volume_le_capacity (evs : List LoopEvent) :
    (run_loop initialSimState initialControlStore true
      evs).1.current_tank_volume_liters ≤ TOTAL_SYSTEM_CAPACITY_LITERS := by
  apply run_loop_preserves_volume_le
  norm_num [initialSimState, TOTAL_SYSTEM_CAPACITY_LITERS,
    INDIVIDUAL_TANK_CAPACITY_LITERS]

/-- Claim C2: the right-hand side returns 0 exactly when the volume is at or
above total capacity with positive net flow, and returns the net flow
fabOutflowRatePerTank * activeTankCount - pumpFlowRate * pumpOn in every
other case, including volume at or above capacity with nonpositive net
flow. -/
theorem calculate_volume_change_rate_overflow_rule
    (t v fab active status : ℚ) :
    (TOTAL_SYSTEM_CAPACITY_LITERS ≤ v →
      0 < fab * active - PUMP_FLOW_RATE_LITERS_PER_MIN * status →
      calculate_volume_change_rate t v fab PUMP_FLOW_RATE_LITERS_PER_MIN
        active status TOTAL_SYSTEM_CAPACITY_LITERS = 0) ∧
    (v < TOTAL_SYSTEM_CAPACITY_LITERS ∨
        fab * active - PUMP_FLOW_RATE_LITERS_PER_MIN * status ≤ 0 →
      calculate_volume_change_rate t v fab PUMP_FLOW_RATE_LITERS_PER_MIN
        active status TOTAL_SYSTEM_CAPACITY_LITERS =
        fab * active - PUMP_FLOW_RATE_LITERS_PER_MIN * status) := by
  unfold calculate_volume_change_rate
  constructor
  · intro hcap hpos
    rw [if_pos ⟨hcap, hpos⟩]
  · intro hother
    rw [if_neg]
    rintro ⟨hcap, hpos⟩
    rcases hother with h | h
    · exact absurd hcap (not_le_of_lt h)
    · exact absurd hpos (not_lt_of_le h)

/-- Witness for claim C2: both cases instantiated at concrete inputs, at
capacity with net flow 140 and empty with the same parameters. -/
theorem calculate_volume_change_rate_overflow_rule_witness :
    calculate_volume_change_rate 0 TOTAL_SYSTEM_CAPACITY_LITERS 100
      PUMP_FLOW_RATE_LITERS_PER_MIN 2 1 TOTAL_SYSTEM_CAPACITY_LITERS = 0 ∧
    calculate_volume_change_rate 0 0 100 PUMP_FLOW_RATE_LITERS_PER_MIN 2 1
      TOTAL_SYSTEM_CAPACITY_LITERS =
      100 * 2 - PUMP_FLOW_RATE_LITERS_PER_MIN * 1 :=
  ⟨(calculate_volume_change_rate_overflow_rule 0
      TOTAL_SYSTEM_CAPACITY_LITERS 100 2 1).1 le_rfl
      (by norm_num [PUMP_FLOW_RATE_LITERS_PER_MIN]),
   (calculate_volume_change_rate_overflow_rule 0 0 100 2 1).2
      (Or.inl (by norm_num [TOTAL_SYSTEM_CAPACITY_LITERS,
        INDIVIDUAL_TANK_CAPACITY_LITERS]))⟩

/-- Claim C3: in the run_test_scenario configuration (initial volume 0,
activeTankCount 2, pumpOn 1, fabOutflowRatePerTank 100) the net flow is
140 L/min, the capacity event fires at exactly 20000/140 minutes (the
exact closed-form solve has zero tolerance), the terminal volume is the
total capacity, and the reporting loop displays exactly 20000 liters at
every evaluation point at or past the event time. -/
theorem run_test_scenario_capacity_event :
    calculate_volume_change_rate 0 0 100 PUMP_FLOW_RATE_LITERS_PER_MIN 2 1
      TOTAL_SYSTEM_CAPACITY_LITERS = 140 ∧
    run_test_scenario_solver_result.event_time = some (20000 / 140) ∧
    run_test_scenario_solver_result.v_end = TOTAL_SYSTEM_CAPACITY_LITERS ∧
    ∀ time_point volume_value : ℚ, 20000 / 140 ≤ time_point →
      scenario_reported_volume (20000 / 140) time_point volume_value
        = 20000 := by
  refine ⟨?_, ?_, ?_, ?_⟩
  · norm_num [calculate_volume_change_rate, TOTAL_SYSTEM_CAPACITY_LITERS,
      INDIVIDUAL_TANK_CAPACITY_LITERS, PUMP_FLOW_RATE_LITERS_PER_MIN]
  · norm_num [run_test_scenario_solver_result, solve_ivp_segment,
      TOTAL_SYSTEM_CAPACITY_LITERS, INDIVIDUAL_TANK_CAPACITY_LITERS,
      PUMP_FLOW_RATE_LITERS_PER_MIN]
  · norm_num [run_test_scenario_solver_result, solve_ivp_segment,
      TOTAL_SYSTEM_CAPACITY_LITERS, INDIVIDUAL_TANK_CAPACITY_LITERS,
      PUMP_FLOW_RATE_LITERS_PER_MIN]
  · intro time_point volume_value h
    unfold scenario_reported_volume
    rw [if_pos ⟨by norm_num, h⟩]
    norm_num [TOTAL_SYSTEM_CAPACITY_LITERS, INDIVIDUAL_TANK_CAPACITY_LITERS]

/-- Witness for claim C3: the reporting row at time 150 minutes (past the
event time 20000/140) displays exactly 20000 liters whatever raw volume the
solver row carried. -/
theorem run_test_scenario_capacity_event_witness :
    scenario_reported_volume (20000 / 140) 150 12345 = 20000 :=
  run_test_scenario_capacity_event.2.2.2 150 12345 (by norm_num)

/-- Claim C4: a falling crossing of the capacity boundary does not
terminate integration.  When the volume starts above total capacity and
the net flow is negative, so that it decreases through the boundary inside
the segment, the event (direction = 1, rising only) does not fire and the
segment runs to its end time. -/
theorem solve_ivp_segment_falling_crossing_no_event
    (t0 d v0 fab active status : ℚ)
    (hd : 0 < d)
    (habove : TOTAL_SYSTEM_CAPACITY_LITERS < v0)
    (hneg : fab * active - PUMP_FLOW_RATE_LITERS_PER_MIN * status < 0)
    (hcross : v0 + (fab * active - PUMP_FLOW_RATE_LITERS_PER_MIN * status) * d
      < TOTAL_SYSTEM_CAPACITY_LITERS) :
    (solve_ivp_segment t0 (t0 + d) v0 fab PUMP_FLOW_RATE_LITERS_PER_MIN
        active status TOTAL_SYSTEM_CAPACITY_LITERS).event_time = none ∧
    (solve_ivp_segment t0 (t0 + d) v0 fab PUMP_FLOW_RATE_LITERS_PER_MIN
        active status TOTAL_SYSTEM_CAPACITY_LITERS).t_end = t0 + d := by
  simp only [solve_ivp_segment]
  split_ifs with h1 h2
  · exact absurd h1.1 (not_lt_of_lt habove)
  · exact absurd h2.2 (not_lt_of_lt hneg)
  · exact ⟨rfl, rfl⟩

/-- Witness for claim C4: starting at 20100 liters with zero inflow and the
pump on (net flow -60 L/min) over a 10 minute segment, the volume falls
through capacity but no event fires and the segment ends at time 10. -/
theorem solve_ivp_segment_falling_crossing_no_event_witness :
    (solve_ivp_segment 0 (0 + 10) 20100 0 PUMP_FLOW_RATE_LITERS_PER_MIN
        0 1 TOTAL_SYSTEM_CAPACITY_LITERS).event_time = none ∧
    (solve_ivp_segment 0 (0 + 10) 20100 0 PUMP_FLOW_RATE_LITERS_PER_MIN
        0 1 TOTAL_SYSTEM_CAPACITY_LITERS).t_end = 0 + 10 :=
  solve_ivp_segment_falling_crossing_no_event 0 10 20100 0 0 1
    (by norm_num)
    (by norm_num [TOTAL_SYSTEM_CAPACITY_LITERS,
      INDIVIDUAL_TANK_CAPACITY_LITERS])
    (by norm_num [PUMP_FLOW_RATE_LITERS_PER_MIN])
    (by norm_num [TOTAL_SYSTEM_CAPACITY_LITERS,
      INDIVIDUAL_TANK_CAPACITY_LITERS, PUMP_FLOW_RATE_LITERS_PER_MIN])

/-- Claim C5: on a tick starting at capacity with positive net flow, the
committed volume stays exactly at total capacity, the right-hand side
evaluates to rate 0 there, and the status indicator of the report line is
OVERFLOW.  Since the committed volume is again the capacity, the same holds
on every subsequent such tick. -/
theorem overflow_tick_reports_capacity (st : SimState) (cs : ControlStore)
    (hcap : st.current_tank_volume_liters = TOTAL_SYSTEM_CAPACITY_LITERS)
    (hpos : 0 < cs.fab_outflow_rate_per_tank * cs.active_tank_count -
      PUMP_FLOW_RATE_LITERS_PER_MIN * cs.pump_operational_status) :
    (simulation_step st cs).current_tank_volume_liters =
      TOTAL_SYSTEM_CAPACITY_LITERS ∧
    calculate_volume_change_rate st.simulation_time_elapsed_minutes
      (simulation_step st cs).current_tank_volume_liters
      cs.fab_outflow_rate_per_tank PUMP_FLOW_RATE_LITERS_PER_MIN
      cs.active_tank_count cs.pump_operational_status
      TOTAL_SYSTEM_CAPACITY_LITERS = 0 ∧
    status_indicator (simulation_step st cs).current_tank_volume_liters =
      "OVERFLOW" := by
  have hsolve : solve_ivp_segment st.simulation_time_elapsed_minutes
      (st.simulation_time_elapsed_minutes + SIMULATION_STEP_DURATION_MINUTES)
      st.current_tank_volume_liters cs.fab_outflow_rate_per_tank
      PUMP_FLOW_RATE_LITERS_PER_MIN cs.active_tank_count
      cs.pump_operational_status TOTAL_SYSTEM_CAPACITY_LITERS =
      { t_end := st.simulation_time_elapsed_minutes +
          SIMULATION_STEP_DURATION_MINUTES
        v_end := st.current_tank_volume_liters
        event_time := none } := by
    simp only [solve_ivp_segment, hcap]
    rw [if_neg, if_pos ⟨le_rfl, hpos⟩]
    rintro ⟨h, -⟩
    exact lt_irrefl _ h
  have hv : (simulation_step st cs).current_tank_volume_liters =
      TOTAL_SYSTEM_CAPACITY_LITERS := by
    simp only [simulation_step, hsolve]
    rw [hcap, if_neg (lt_irrefl _)]
  refine ⟨hv, ?_, ?_⟩
  · rw [hv]
    unfold calculate_volume_change_rate
    rw [if_pos ⟨le_rfl, hpos⟩]
  · rw [hv]
    unfold status_indicator
    rw [if_pos le_rfl]

/-- Witness for claim C5: a tick starting exactly at 20000 liters with the
initial control parameters (net flow 140 L/min) commits 20000 liters, rate
0, status OVERFLOW. -/
theorem overflow_tick_reports_capacity_witness :
    (simulation_step ⟨20000, 0⟩
        initialControlStore).current_tank_volume_liters =
      TOTAL_SYSTEM_CAPACITY_LITERS ∧
    calculate_volume_change_rate
      (SimState.mk 20000 0).simulation_time_elapsed_minutes
      (simulation_step ⟨20000, 0⟩
        initialControlStore).current_tank_volume_liters
      initialControlStore.fab_outflow_rate_per_tank
      PUMP_FLOW_RATE_LITERS_PER_MIN initialControlStore.active_tank_count
      initialControlStore.pump_operational_status
      TOTAL_SYSTEM_CAPACITY_LITERS = 0 ∧
    status_indicator (simulation_step ⟨20000, 0⟩
      initialControlStore).current_tank_volume_liters = "OVERFLOW" :=
  overflow_tick_reports_capacity ⟨20000, 0⟩ initialControlStore
    (by norm_num [TOTAL_SYSTEM_CAPACITY_LITERS,
      INDIVIDUAL_TANK_CAPACITY_LITERS])
    (by norm_num [initialControlStore, PUMP_FLOW_RATE_LITERS_PER_MIN])

/-- Claim C6: a control message whose payload fails the float conversion
leaves every parameter at its prior value (the handler is a total function
returning the unchanged store, modelling the logged-only ValueError
branch), and the rest of the run, including the next integration segment,
proceeds exactly as if the message had never arrived. -/
theorem invalid_payload_leaves_parameters_unchanged (st : SimState)
    (cs : ControlStore) (topic : String) (evs : List LoopEvent) :
    handle_control_message cs topic none = cs ∧
    run_loop st cs true (LoopEvent.control topic none :: evs) =
      run_loop st cs true evs :=
  ⟨rfl, rfl⟩

/-- Helper: once is_simulation_running is False, the simulation state is
frozen for the rest of the run and the flag stays False, whatever control
messages still arrive. -/
theorem run_loop_frozen_after_stop (evs : List LoopEvent) :
    ∀ (st : SimState) (cs : ControlStore),
      (run_loop st cs false evs).1 = st ∧
      (run_loop st cs false evs).2.2 = false := by
  induction evs with
  | nil => intro st cs; exact ⟨rfl, rfl⟩
  | cons ev rest ih =>
    intro st cs
    cases ev with
    | control topic payload => exact ih st _
    | tick solver_raises => exact ih st cs

/-- Claim C7: a tick whose solve_ivp call raises stops the loop
permanently: the physical state (volume and elapsed time) is exactly the
state before the failing segment, nothing of the failed segment is
committed, and no later tick is executed. -/
theorem solver_failure_stops_loop_without_commit (st : SimState)
    (cs : ControlStore) (rest : List LoopEvent) :
    (run_loop st cs true (LoopEvent.tick true :: rest)).1 = st ∧
    (run_loop st cs true (LoopEvent.tick true :: rest)).2.2 = false :=
  run_loop_frozen_after_stop rest st cs

/-- Claim C9: when the capacity event fires strictly inside a segment, the
loop commits the event time rather than the segment end time, so the
elapsed simulated time advances by strictly less than the segment
duration on that tick. -/
theorem event_tick_commits_event_time (st : SimState) (cs : ControlStore)
    (hbelow : st.current_tank_volume_liters < TOTAL_SYSTEM_CAPACITY_LITERS)
    (hpos : 0 < cs.fab_outflow_rate_per_tank * cs.active_tank_count -
      PUMP_FLOW_RATE_LITERS_PER_MIN * cs.pump_operational_status)
    (hinside : TOTAL_SYSTEM_CAPACITY_LITERS - st.current_tank_volume_liters <
      (cs.fab_outflow_rate_per_tank * cs.active_tank_count -
        PUMP_FLOW_RATE_LITERS_PER_MIN * cs.pump_operational_status) *
        SIMULATION_STEP_DURATION_MINUTES) :
    (solve_ivp_segment st.simulation_time_elapsed_minutes
        (st.simulation_time_elapsed_minutes + SIMULATION_STEP_DURATION_MINUTES)
        st.current_tank_volume_liters cs.fab_outflow_rate_per_tank
        PUMP_FLOW_RATE_LITERS_PER_MIN cs.active_tank_count
        cs.pump_operational_status TOTAL_SYSTEM_CAPACITY_LITERS).event_time =
      some (st.simulation_time_elapsed_minutes +
        (TOTAL_SYSTEM_CAPACITY_LITERS - st.current_tank_volume_liters) /
        (cs.fab_outflow_rate_per_tank * cs.active_tank_count -
          PUMP_FLOW_RATE_LITERS_PER_MIN * cs.pump_operational_status)) ∧
    (simulation_step st cs).simulation_time_elapsed_minutes =
      st.simulation_time_elapsed_minutes +
        (TOTAL_SYSTEM_CAPACITY_LITERS - st.current_tank_volume_liters) /
        (cs.fab_outflow_rate_per_tank * cs.active_tank_count -
          PUMP_FLOW_RATE_LITERS_PER_MIN * cs.pump_operational_status) ∧
    (simulation_step st cs).simulation_time_elapsed_minutes <
      st.simulation_time_elapsed_minutes +
        SIMULATION_STEP_DURATION_MINUTES := by
  have hcond : TOTAL_SYSTEM_CAPACITY_LITERS - st.current_tank_volume_liters ≤
      (cs.fab_outflow_rate_per_tank * cs.active_tank_count -
        PUMP_FLOW_RATE_LITERS_PER_MIN * cs.pump_operational_status) *
      (st.simulation_time_elapsed_minutes + SIMULATION_STEP_DURATION_MINUTES -
        st.simulation_time_elapsed_minutes) := by
    have h : st.simulation_time_elapsed_minutes +
        SIMULATION_STEP_DURATION_MINUTES -
        st.simulation_time_elapsed_minutes =
        SIMULATION_STEP_DURATION_MINUTES := by ring
    rw [h]
    exact le_of_lt hinside
  have hsolve : solve_ivp_segment st.simulation_time_elapsed_minutes
      (st.simulation_time_elapsed_minutes + SIMULATION_STEP_DURATION_MINUTES)
      st.current_tank_volume_liters cs.fab_outflow_rate_per_tank
      PUMP_FLOW_RATE_LITERS_PER_MIN cs.active_tank_count
      cs.pump_operational_status TOTAL_SYSTEM_CAPACITY_LITERS =
      { t_end := st.simulation_time_elapsed_minutes +
          (TOTAL_SYSTEM_CAPACITY_LITERS - st.current_tank_volume_liters) /
          (cs.fab_outflow_rate_per_tank * cs.active_tank_count -
            PUMP_FLOW_RATE_LITERS_PER_MIN * cs.pump_operational_status)
        v_end := TOTAL_SYSTEM_CAPACITY_LITERS
        event_time := some (st.simulation_time_elapsed_minutes +
          (TOTAL_SYSTEM_CAPACITY_LITERS - st.current_tank_volume_liters) /
          (cs.fab_outflow_rate_per_tank * cs.active_tank_count -
            PUMP_FLOW_RATE_LITERS_PER_MIN * cs.pump_operational_status)) } := by
    simp only [solve_ivp_segment]
    rw [if_pos ⟨hbelow, hpos, hcond⟩]
  have htime : (simulation_step st cs).simulation_time_elapsed_minutes =
      st.simulation_time_elapsed_minutes +
        (TOTAL_SYSTEM_CAPACITY_LITERS - st.current_tank_volume_liters) /
        (cs.fab_outflow_rate_per_tank * cs.active_tank_count -
          PUMP_FLOW_RATE_LITERS_PER_MIN * cs.pump_operational_status) := by
    simp only [simulation_step, hsolve]
  refine ⟨by rw [hsolve], htime, ?_⟩
  rw [htime]
  have hdivlt : (TOTAL_SYSTEM_CAPACITY_LITERS -
      st.current_tank_volume_liters) /
      (cs.fab_outflow_rate_per_tank * cs.active_tank_count -
        PUMP_FLOW_RATE_LITERS_PER_MIN * cs.pump_operational_status) <
      SIMULATION_STEP_DURATION_MINUTES := by
    rw [div_lt_iff₀ hpos]
    calc TOTAL_SYSTEM_CAPACITY_LITERS - st.current_tank_volume_liters
        < (cs.fab_outflow_rate_per_tank * cs.active_tank_count -
            PUMP_FLOW_RATE_LITERS_PER_MIN * cs.pump_operational_status) *
          SIMULATION_STEP_DURATION_MINUTES := hinside
      _ = SIMULATION_STEP_DURATION_MINUTES *
          (cs.fab_outflow_rate_per_tank * cs.active_tank_count -
            PUMP_FLOW_RATE_LITERS_PER_MIN * cs.pump_operational_status) := by
          ring
  linarith

/-- Witness for claim C9: from 19999 liters with the initial control
parameters (net flow 140 L/min) the event fires at 1/140 minute into the
tick, before the 1/60 minute segment end, and exactly that time is
committed. -/
theorem event_tick_commits_event_time_witness :
    (solve_ivp_segment (SimState.mk 19999 0).simulation_time_elapsed_minutes
        ((SimState.mk 19999 0).simulation_time_elapsed_minutes +
          SIMULATION_STEP_DURATION_MINUTES)
        (SimState.mk 19999 0).current_tank_volume_liters
        initialControlStore.fab_outflow_rate_per_tank
        PUMP_FLOW_RATE_LITERS_PER_MIN initialControlStore.active_tank_count
        initialControlStore.pump_operational_status
        TOTAL_SYSTEM_CAPACITY_LITERS).event_time =
      some ((SimState.mk 19999 0).simulation_time_elapsed_minutes +
        (TOTAL_SYSTEM_CAPACITY_LITERS -
          (SimState.mk 19999 0).current_tank_volume_liters) /
        (initialControlStore.fab_outflow_rate_per_tank *
            initialControlStore.active_tank_count -
          PUMP_FLOW_RATE_LITERS_PER_MIN *
            initialControlStore.pump_operational_status)) ∧
    (simulation_step ⟨19999, 0⟩
        initialControlStore).simulation_time_elapsed_minutes =
      (SimState.mk 19999 0).simulation_time_elapsed_minutes +
        (TOTAL_SYSTEM_CAPACITY_LITERS -
          (SimState.mk 19999 0).current_tank_volume_liters) /
        (initialControlStore.fab_outflow_rate_per_tank *
            initialControlStore.active_tank_count -
          PUMP_FLOW_RATE_LITERS_PER_MIN *
            initialControlStore.pump_operational_status) ∧
    (simulation_step ⟨19999, 0⟩
        initialControlStore).simulation_time_elapsed_minutes <
      (SimState.mk 19999 0).simulation_time_elapsed_minutes +
        SIMULATION_STEP_DURATION_MINUTES :=
  event_tick_commits_event_time ⟨19999, 0⟩ initialControlStore
    (by norm_num [TOTAL_SYSTEM_CAPACITY_LITERS,
      INDIVIDUAL_TANK_CAPACITY_LITERS])
    (by norm_num [initialControlStore, PUMP_FLOW_RATE_LITERS_PER_MIN])
    (by norm_num [initialControlStore, TOTAL_SYSTEM_CAPACITY_LITERS,
      INDIVIDUAL_TANK_CAPACITY_LITERS, PUMP_FLOW_RATE_LITERS_PER_MIN,
      SIMULATION_STEP_DURATION_MINUTES])

/-- Claim C10: the handler rejects a payload exactly when the float
conversion fails; every numeric payload, with no range check, is written to
the parameter selected by the topic, including negative tank counts or
outflow rates and pump values other than 0 and 1. -/
theorem handle_control_message_accepts_any_numeric (cs : ControlStore)
    (v : ℚ) (topic : String) :
    handle_control_message cs TOPIC_ACTIVE_TANK_COUNT (some v) =
      { cs with active_tank_count := v } ∧
    handle_control_message cs TOPIC_PUMP_OPERATIONAL_STATUS (some v) =
      { cs with pump_operational_status := v } ∧
    handle_control_message cs TOPIC_FAB_OUTFLOW_RATE (some v) =
      { cs with fab_outflow_rate_per_tank := v } ∧
    handle_control_message cs topic none = cs := by
  refine ⟨?_, ?_, ?_, rfl⟩ <;>
    simp [handle_control_message, TOPIC_ACTIVE_TANK_COUNT,
      TOPIC_PUMP_OPERATIONAL_STATUS, TOPIC_FAB_OUTFLOW_RATE]
